import Mathlib

/-!
Verification of the fielder-nextjs harvest-discovery subsystem.

The development embeds, as executable Lean definitions:
* the product/cultivar catalog of src/src/lib/constants/products.ts
  (PRODUCTS, CULTIVARS and the id lookups),
* the region catalog of src/src/lib/constants/regions.ts (US_GROWING_REGIONS),
* the batch discovery endpoint GET /api/discover and its helper
  fetchAllPredictions of src/unnamed/part_000 (lines 209-412), including the
  hour-bucket prediction cache, the distance attachment, and the
  inSeason / comingSoon bucket filters and sorts.

The endpoint calls four collaborator modules that are imported from
lib/services and lib/constants paths whose sources are not part of the
repository snapshot (weatherService, harvestPredictor, gdd-targets,
distance).  They are represented by an explicit record of oracles
(DiscoveryEnv below) and every theorem quantifies over that record, so the
results hold for every implementation of the collaborators.  JavaScript
numbers are modelled as rationals, a thrown exception of a collaborator as
an Option-none result, and Date.now() as a natural number of milliseconds.
-/

namespace Fielder

/-- Model type of a cultivar, from the TS union
ModelType = 'gdd' | 'calendar' | 'parent' (products.ts line 39). -/
inductive ModelType where
  | gdd
  | calendar
  | parent
deriving DecidableEq

/-- One entry of the PRODUCTS catalog (products.ts lines 47-54).  The category
and subcategory unions are kept as their string values; the name, displayName
and description fields are presentation-only and unused by the discovery
pipeline, so they are omitted. -/
structure Product where
  id : String
  category : String
  subcategory : String
deriving DecidableEq

/-- One entry of the CULTIVARS catalog (products.ts lines 65-97).  The
presentation-only fields (displayName, technicalName, tradeNames, isHeritage,
isNonGmo, flavorProfile, nutritionNotes, peakSeasons, description) are
omitted; all model-relevant fields are kept. -/
structure Cultivar where
  id : String
  productId : String
  modelType : ModelType
  baseTemp : Option ℚ := none
  gddToMaturity : Option ℚ := none
  gddToPeak : Option ℚ := none
  gddWindow : Option ℚ := none
  peakMonths : Option (List Nat) := none
  parentCultivarId : Option String := none
  parentVarietyId : Option String := none
deriving DecidableEq

/-- The PRODUCTS catalog (products.ts lines 200-311), in source order. -/
def PRODUCTS : List Product := [
  ⟨"orange", "fruit", "citrus"⟩,
  ⟨"grapefruit", "fruit", "citrus"⟩,
  ⟨"tangerine", "fruit", "citrus"⟩,
  ⟨"lemon", "fruit", "citrus"⟩,
  ⟨"lime", "fruit", "citrus"⟩,
  ⟨"peach", "fruit", "stone_fruit"⟩,
  ⟨"nectarine", "fruit", "stone_fruit"⟩,
  ⟨"plum", "fruit", "stone_fruit"⟩,
  ⟨"apricot", "fruit", "stone_fruit"⟩,
  ⟨"cherry", "fruit", "stone_fruit"⟩,
  ⟨"apple", "fruit", "pome_fruit"⟩,
  ⟨"pear", "fruit", "pome_fruit"⟩,
  ⟨"persimmon", "fruit", "pome_fruit"⟩,
  ⟨"strawberry", "fruit", "berry"⟩,
  ⟨"blueberry", "fruit", "berry"⟩,
  ⟨"raspberry", "fruit", "berry"⟩,
  ⟨"blackberry", "fruit", "berry"⟩,
  ⟨"grape", "fruit", "berry"⟩,
  ⟨"cranberry", "fruit", "berry"⟩,
  ⟨"watermelon", "fruit", "melon"⟩,
  ⟨"cantaloupe", "fruit", "melon"⟩,
  ⟨"honeydew", "fruit", "melon"⟩,
  ⟨"avocado", "fruit", "tropical"⟩,
  ⟨"mango", "fruit", "tropical"⟩,
  ⟨"fig", "fruit", "tropical"⟩,
  ⟨"pomegranate", "fruit", "tropical"⟩,
  ⟨"lettuce", "vegetable", "leafy"⟩,
  ⟨"spinach", "vegetable", "leafy"⟩,
  ⟨"kale", "vegetable", "leafy"⟩,
  ⟨"arugula", "vegetable", "leafy"⟩,
  ⟨"chard", "vegetable", "leafy"⟩,
  ⟨"collards", "vegetable", "leafy"⟩,
  ⟨"carrot", "vegetable", "root"⟩,
  ⟨"potato", "vegetable", "root"⟩,
  ⟨"sweet_potato", "vegetable", "root"⟩,
  ⟨"beet", "vegetable", "root"⟩,
  ⟨"radish", "vegetable", "root"⟩,
  ⟨"turnip", "vegetable", "root"⟩,
  ⟨"tomato", "vegetable", "nightshade"⟩,
  ⟨"pepper", "vegetable", "nightshade"⟩,
  ⟨"eggplant", "vegetable", "nightshade"⟩,
  ⟨"zucchini", "vegetable", "squash"⟩,
  ⟨"butternut", "vegetable", "squash"⟩,
  ⟨"acorn", "vegetable", "squash"⟩,
  ⟨"pumpkin", "vegetable", "squash"⟩,
  ⟨"broccoli", "vegetable", "cruciferous"⟩,
  ⟨"cauliflower", "vegetable", "cruciferous"⟩,
  ⟨"cabbage", "vegetable", "cruciferous"⟩,
  ⟨"brussels_sprouts", "vegetable", "cruciferous"⟩,
  ⟨"onion", "vegetable", "allium"⟩,
  ⟨"garlic", "vegetable", "allium"⟩,
  ⟨"leek", "vegetable", "allium"⟩,
  ⟨"green_bean", "vegetable", "legume"⟩,
  ⟨"pea", "vegetable", "legume"⟩,
  ⟨"pecan", "nut", "tree_nut"⟩,
  ⟨"walnut", "nut", "tree_nut"⟩,
  ⟨"almond", "nut", "tree_nut"⟩,
  ⟨"hazelnut", "nut", "tree_nut"⟩,
  ⟨"pistachio", "nut", "tree_nut"⟩,
  ⟨"peanut", "nut", "ground_nut"⟩,
  ⟨"beef", "meat", "red_meat"⟩,
  ⟨"pork", "meat", "red_meat"⟩,
  ⟨"lamb", "meat", "red_meat"⟩,
  ⟨"chicken", "meat", "poultry"⟩,
  ⟨"turkey", "meat", "poultry"⟩,
  ⟨"eggs", "dairy", "eggs"⟩,
  ⟨"milk", "dairy", "milk"⟩,
  ⟨"cheese", "dairy", "milk"⟩,
  ⟨"honey", "honey", "raw_honey"⟩,
  ⟨"orange_juice", "processed", "juice"⟩,
  ⟨"apple_cider", "processed", "cider"⟩,
  ⟨"maple_syrup", "processed", "syrup"⟩,
  ⟨"olive_oil", "processed", "oil"⟩]

/-- The CULTIVARS catalog (products.ts lines 317-950), in source order. -/
def CULTIVARS : List Cultivar := [
  { id := "navel_orange", productId := "orange", modelType := .calendar,
    peakMonths := some [11, 12, 1] },
  { id := "cara_cara", productId := "orange", modelType := .calendar,
    peakMonths := some [12, 1, 2] },
  { id := "valencia_orange", productId := "orange", modelType := .calendar,
    peakMonths := some [3, 4, 5, 6] },
  { id := "blood_orange", productId := "orange", modelType := .calendar,
    peakMonths := some [12, 1, 2, 3] },
  { id := "ruby_red_grapefruit", productId := "grapefruit", modelType := .calendar,
    peakMonths := some [11, 12, 1, 2, 3, 4, 5] },
  { id := "rio_star_grapefruit", productId := "grapefruit", modelType := .calendar,
    peakMonths := some [11, 12, 1, 2, 3] },
  { id := "marsh_grapefruit", productId := "grapefruit", modelType := .calendar,
    peakMonths := some [11, 12, 1, 2, 3, 4, 5] },
  { id := "satsuma", productId := "tangerine", modelType := .calendar,
    peakMonths := some [10, 11, 12] },
  { id := "clementine", productId := "tangerine", modelType := .calendar,
    peakMonths := some [11, 12, 1] },
  { id := "honey_tangerine", productId := "tangerine", modelType := .calendar,
    peakMonths := some [1, 2, 3, 4] },
  { id := "eureka_lemon", productId := "lemon", modelType := .calendar,
    peakMonths := some [11, 12, 1, 2, 3] },
  { id := "meyer_lemon", productId := "lemon", modelType := .calendar,
    peakMonths := some [11, 12, 1, 2, 3] },
  { id := "honeycrisp", productId := "apple", modelType := .calendar,
    peakMonths := some [9, 10] },
  { id := "fuji", productId := "apple", modelType := .calendar,
    peakMonths := some [10, 11] },
  { id := "gala", productId := "apple", modelType := .calendar,
    peakMonths := some [8, 9] },
  { id := "granny_smith", productId := "apple", modelType := .calendar,
    peakMonths := some [10, 11] },
  { id := "pink_lady", productId := "apple", modelType := .calendar,
    peakMonths := some [10, 11, 12] },
  { id := "arkansas_black", productId := "apple", modelType := .calendar,
    peakMonths := some [10, 11] },
  { id := "cosmic_crisp", productId := "apple", modelType := .calendar,
    peakMonths := some [10, 11] },
  { id := "elberta_peach", productId := "peach", modelType := .calendar,
    peakMonths := some [7, 8] },
  { id := "georgia_belle", productId := "peach", modelType := .calendar,
    peakMonths := some [7, 8] },
  { id := "redhaven", productId := "peach", modelType := .calendar,
    peakMonths := some [6, 7] },
  { id := "white_lady", productId := "peach", modelType := .calendar,
    peakMonths := some [7, 8] },
  { id := "bing_cherry", productId := "cherry", modelType := .calendar,
    peakMonths := some [6, 7] },
  { id := "rainier_cherry", productId := "cherry", modelType := .calendar,
    peakMonths := some [6, 7] },
  { id := "montmorency", productId := "cherry", modelType := .calendar,
    peakMonths := some [7] },
  { id := "chandler_strawberry", productId := "strawberry", modelType := .calendar,
    peakMonths := some [3, 4, 5, 6] },
  { id := "earliglow", productId := "strawberry", modelType := .calendar,
    peakMonths := some [5, 6] },
  { id := "seascape", productId := "strawberry", modelType := .calendar,
    peakMonths := some [5, 6, 7, 8, 9] },
  { id := "duke_blueberry", productId := "blueberry", modelType := .calendar,
    peakMonths := some [6, 7] },
  { id := "bluecrop", productId := "blueberry", modelType := .calendar,
    peakMonths := some [7, 8] },
  { id := "rabbiteye", productId := "blueberry", modelType := .calendar,
    peakMonths := some [6, 7, 8] },
  { id := "brandywine", productId := "tomato", modelType := .gdd,
    baseTemp := some 50, gddToMaturity := some 1600, gddToPeak := some 1800,
    gddWindow := some 400 },
  { id := "cherokee_purple", productId := "tomato", modelType := .gdd,
    baseTemp := some 50, gddToMaturity := some 1500, gddToPeak := some 1700,
    gddWindow := some 400 },
  { id := "san_marzano", productId := "tomato", modelType := .gdd,
    baseTemp := some 50, gddToMaturity := some 1400, gddToPeak := some 1600,
    gddWindow := some 350 },
  { id := "sungold", productId := "tomato", modelType := .gdd,
    baseTemp := some 50, gddToMaturity := some 1200, gddToPeak := some 1400,
    gddWindow := some 400 },
  { id := "jimmy_nardello", productId := "pepper", modelType := .gdd,
    baseTemp := some 55, gddToMaturity := some 1200, gddToPeak := some 1400,
    gddWindow := some 350 },
  { id := "shishito", productId := "pepper", modelType := .gdd,
    baseTemp := some 55, gddToMaturity := some 1100, gddToPeak := some 1300,
    gddWindow := some 400 },
  { id := "hatch_chile", productId := "pepper", modelType := .gdd,
    baseTemp := some 55, gddToMaturity := some 1300, gddToPeak := some 1500,
    gddWindow := some 350 },
  { id := "nantes_carrot", productId := "carrot", modelType := .gdd,
    baseTemp := some 40, gddToMaturity := some 1100, gddToPeak := some 1250,
    gddWindow := some 300 },
  { id := "purple_haze", productId := "carrot", modelType := .gdd,
    baseTemp := some 40, gddToMaturity := some 1150, gddToPeak := some 1300,
    gddWindow := some 300 },
  { id := "yukon_gold", productId := "potato", modelType := .gdd,
    baseTemp := some 45, gddToMaturity := some 1400, gddToPeak := some 1600,
    gddWindow := some 400 },
  { id := "fingerling", productId := "potato", modelType := .gdd,
    baseTemp := some 45, gddToMaturity := some 1500, gddToPeak := some 1700,
    gddWindow := some 400 },
  { id := "purple_peruvian", productId := "potato", modelType := .gdd,
    baseTemp := some 45, gddToMaturity := some 1600, gddToPeak := some 1800,
    gddWindow := some 400 },
  { id := "vidalia_onion", productId := "onion", modelType := .gdd,
    baseTemp := some 40, gddToMaturity := some 1400, gddToPeak := some 1600,
    gddWindow := some 350 },
  { id := "walla_walla", productId := "onion", modelType := .gdd,
    baseTemp := some 40, gddToMaturity := some 1500, gddToPeak := some 1700,
    gddWindow := some 350 },
  { id := "music_garlic", productId := "garlic", modelType := .gdd,
    baseTemp := some 35, gddToMaturity := some 1800, gddToPeak := some 2000,
    gddWindow := some 400 },
  { id := "inchelium_red", productId := "garlic", modelType := .gdd,
    baseTemp := some 35, gddToMaturity := some 1700, gddToPeak := some 1900,
    gddWindow := some 400 },
  { id := "grass_fed_beef", productId := "beef", modelType := .calendar,
    peakMonths := some [9, 10, 11] },
  { id := "heritage_pork", productId := "pork", modelType := .calendar,
    peakMonths := some [10, 11, 12] },
  { id := "spring_lamb", productId := "lamb", modelType := .calendar,
    peakMonths := some [4, 5, 6] },
  { id := "pasture_chicken", productId := "chicken", modelType := .calendar,
    peakMonths := some [5, 6, 7, 8, 9, 10] },
  { id := "heritage_turkey", productId := "turkey", modelType := .calendar,
    peakMonths := some [10, 11] },
  { id := "pasture_eggs", productId := "eggs", modelType := .calendar,
    peakMonths := some [3, 4, 5, 6, 7, 8, 9] },
  { id := "grass_milk", productId := "milk", modelType := .calendar,
    peakMonths := some [4, 5, 6, 7, 8, 9, 10] },
  { id := "wildflower_honey", productId := "honey", modelType := .calendar,
    peakMonths := some [5, 6, 7, 8, 9] },
  { id := "tupelo_honey", productId := "honey", modelType := .calendar,
    peakMonths := some [4, 5] },
  { id := "sourwood_honey", productId := "honey", modelType := .calendar,
    peakMonths := some [7, 8] },
  { id := "pecan", productId := "pecan", modelType := .gdd,
    baseTemp := some 50, gddToMaturity := some 2800, gddToPeak := some 3200,
    gddWindow := some 600 },
  { id := "walnut", productId := "walnut", modelType := .gdd,
    baseTemp := some 50, gddToMaturity := some 2600, gddToPeak := some 3000,
    gddWindow := some 500 },
  { id := "almond", productId := "almond", modelType := .gdd,
    baseTemp := some 50, gddToMaturity := some 2400, gddToPeak := some 2800,
    gddWindow := some 400 },
  { id := "hazelnut", productId := "hazelnut", modelType := .gdd,
    baseTemp := some 45, gddToMaturity := some 2200, gddToPeak := some 2600,
    gddWindow := some 500 },
  { id := "pistachio", productId := "pistachio", modelType := .gdd,
    baseTemp := some 55, gddToMaturity := some 3200, gddToPeak := some 3600,
    gddWindow := some 500 },
  { id := "fresh_squeezed_oj", productId := "orange_juice", modelType := .parent,
    parentVarietyId := some "valencia_orange" },
  { id := "fresh_cider", productId := "apple_cider", modelType := .parent,
    parentVarietyId := some "honeycrisp" },
  { id := "grade_a_maple", productId := "maple_syrup", modelType := .calendar,
    peakMonths := some [2, 3, 4] },
  { id := "fresh_evoo", productId := "olive_oil", modelType := .parent,
    parentVarietyId := some "olive" }]

/-- Lookup in the CULTIVARS_BY_ID record (products.ts lines 1100-1102):
an id-keyed index of CULTIVARS. -/
def cultivarById (cid : String) : Option Cultivar :=
  CULTIVARS.find? (fun c => c.id == cid)

/-- Lookup in the PRODUCTS_BY_ID record (products.ts lines 1096-1098). -/
def productById (pid : String) : Option Product :=
  PRODUCTS.find? (fun p => p.id == pid)

/-- One entry of the US_GROWING_REGIONS record (regions.ts lines 18-27).
The climate field (ClimateData) is never read by the discovery endpoint and
is omitted.  Coordinates are rationals; the TS decimal literals are written
as exact fractions. -/
structure GrowingRegion where
  id : String
  name : String
  displayName : String
  state : String
  latitude : ℚ
  longitude : ℚ
  viableCrops : List String
deriving DecidableEq

/-- The US_GROWING_REGIONS record (regions.ts lines 29-455) as a list in
insertion order, which is the order Object.entries enumerates it.  In the
source each entry is keyed by a string equal to its own id field, so the key
is represented by the id field. -/
def US_GROWING_REGIONS : List GrowingRegion := [
  { id := "indian_river", name := "Indian River District",
    displayName := "Indian River District", state := "FL",
    latitude := 276/10, longitude := -804/10,
    viableCrops := ["navel_orange", "grapefruit", "tangerine", "valencia"] },
  { id := "central_florida", name := "Central Florida",
    displayName := "Central Florida", state := "FL",
    latitude := 285/10, longitude := -814/10,
    viableCrops := ["navel_orange", "strawberry", "blueberry"] },
  { id := "south_florida", name := "South Florida (Miami-Dade/Homestead)",
    displayName := "South Florida", state := "FL",
    latitude := 255/10, longitude := -804/10,
    viableCrops := ["mango"] },
  { id := "sweet_valley", name := "Sweet Valley (FL Panhandle / S. Alabama / S. Georgia)",
    displayName := "Sweet Valley", state := "FL",
    latitude := 305/10, longitude := -865/10,
    viableCrops := ["satsuma", "navel_orange", "pecan", "blueberry"] },
  { id := "georgia_piedmont", name := "Georgia Piedmont (Peach Belt)",
    displayName := "Georgia Piedmont", state := "GA",
    latitude := 328/10, longitude := -836/10,
    viableCrops := ["peach", "blueberry", "pecan"] },
  { id := "texas_rgv", name := "Texas Rio Grande Valley",
    displayName := "Texas RGV", state := "TX",
    latitude := 262/10, longitude := -982/10,
    viableCrops := ["grapefruit", "navel_orange", "tangerine"] },
  { id := "texas_hill_country", name := "Texas Hill Country",
    displayName := "Texas Hill Country", state := "TX",
    latitude := 303/10, longitude := -985/10,
    viableCrops := ["peach", "pecan"] },
  { id := "texas_pecan_belt", name := "Texas Pecan Belt (Central)",
    displayName := "Texas Pecan Belt", state := "TX",
    latitude := 315/10, longitude := -970/10,
    viableCrops := ["pecan"] },
  { id := "california_central_valley", name := "California Central Valley (Fresno/Visalia)",
    displayName := "CA Central Valley", state := "CA",
    latitude := 367/10, longitude := -1198/10,
    viableCrops := ["peach", "navel_orange", "pomegranate", "sweet_cherry", "apple"] },
  { id := "california_coastal", name := "California Central Coast (Watsonville)",
    displayName := "CA Central Coast", state := "CA",
    latitude := 369/10, longitude := -1218/10,
    viableCrops := ["strawberry", "apple"] },
  { id := "california_southern_desert", name := "California Southern Desert (Coachella)",
    displayName := "Coachella Valley", state := "CA",
    latitude := 337/10, longitude := -1162/10,
    viableCrops := ["navel_orange", "grapefruit"] },
  { id := "pacific_nw_yakima", name := "Washington Yakima Valley",
    displayName := "Yakima Valley", state := "WA",
    latitude := 466/10, longitude := -1205/10,
    viableCrops := ["apple", "sweet_cherry", "pear"] },
  { id := "pacific_nw_wenatchee", name := "Washington Wenatchee Valley",
    displayName := "Wenatchee Valley", state := "WA",
    latitude := 474/10, longitude := -1203/10,
    viableCrops := ["apple", "cherry", "pear"] },
  { id := "pacific_nw_hood_river", name := "Oregon Hood River Valley",
    displayName := "Hood River Valley", state := "OR",
    latitude := 457/10, longitude := -1215/10,
    viableCrops := ["pear", "apple", "cherry"] },
  { id := "michigan_west", name := "West Michigan (Grand Traverse/Leelanau)",
    displayName := "West Michigan", state := "MI",
    latitude := 448/10, longitude := -856/10,
    viableCrops := ["tart_cherry", "sweet_cherry", "apple", "blueberry"] },
  { id := "michigan_southwest", name := "Southwest Michigan (Berrien County)",
    displayName := "SW Michigan", state := "MI",
    latitude := 420/10, longitude := -865/10,
    viableCrops := ["blueberry", "apple", "peach"] },
  { id := "wisconsin_door_county", name := "Wisconsin Door County",
    displayName := "Door County", state := "WI",
    latitude := 450/10, longitude := -872/10,
    viableCrops := ["tart_cherry", "apple"] },
  { id := "new_york_hudson_valley", name := "New York Hudson Valley",
    displayName := "Hudson Valley", state := "NY",
    latitude := 417/10, longitude := -739/10,
    viableCrops := ["apple", "blueberry"] },
  { id := "new_york_finger_lakes", name := "New York Finger Lakes",
    displayName := "Finger Lakes", state := "NY",
    latitude := 425/10, longitude := -765/10,
    viableCrops := ["apple", "blueberry", "tart_cherry"] },
  { id := "pennsylvania_adams_county", name := "Pennsylvania Adams County (Gettysburg)",
    displayName := "Adams County", state := "PA",
    latitude := 398/10, longitude := -772/10,
    viableCrops := ["apple", "peach", "blueberry"] },
  { id := "new_jersey_pine_barrens", name := "New Jersey Pine Barrens",
    displayName := "Pine Barrens", state := "NJ",
    latitude := 398/10, longitude := -745/10,
    viableCrops := ["blueberry"] },
  { id := "gulf_coast_citrus", name := "Gulf Coast Citrus (Louisiana/Mississippi)",
    displayName := "Gulf Coast", state := "LA",
    latitude := 300/10, longitude := -900/10,
    viableCrops := ["satsuma", "meyer_lemon"] },
  { id := "new_england", name := "New England (Vermont/Massachusetts)",
    displayName := "New England", state := "VT",
    latitude := 440/10, longitude := -727/10,
    viableCrops := ["apple", "maple_syrup", "blueberry"] },
  { id := "south_carolina_ridge", name := "South Carolina Peach Ridge",
    displayName := "SC Peach Ridge", state := "SC",
    latitude := 345/10, longitude := -820/10,
    viableCrops := ["peach", "nectarine"] }]

/-- Lookup US_GROWING_REGIONS[regionId] (the TS record access). -/
def findRegion (regionId : String) : Option GrowingRegion :=
  US_GROWING_REGIONS.find? (fun r => r.id == regionId)

/-- Result of weatherService.getGddAccumulation, as consumed by the endpoint
at part_000 lines 335 and 345-350 and described by the spec contract of
section 4.1. -/
structure GddAccumulation where
  totalGdd : ℚ
  avgDailyGdd : ℚ
deriving DecidableEq

/-- Modelled from the spec: the per-crop GDD target record returned by
getGddTargets of lib/constants/gdd-targets, whose source is not in the
snapshot.  Only the baseTemp field is read by the endpoint (part_000 line
348), so the record is modelled with that field. -/
structure GddTargets where
  baseTemp : ℚ
deriving DecidableEq

/-- Modelled from the spec: the HarvestWindow record produced by
harvestPredictor.predictHarvestWindow (spec section 3): four projected
calendar dates (as day numbers) and a confidence score.  The endpoint reads
only the confidence field directly (part_000 line 403); the whole record is
passed on to the formatting and status oracles. -/
structure HarvestWindow where
  harvestStartDate : Int
  peakStartDate : Int
  peakEndDate : Int
  harvestEndDate : Int
  confidence : ℚ
deriving DecidableEq

/-- Result shape of harvestPredictor.formatHarvestWindow as consumed at
part_000 lines 398-401. -/
structure FormattedHarvestWindow where
  harvestStartDate : String
  harvestEndDate : String
  optimalStartDate : String
  optimalEndDate : String
deriving DecidableEq

/-- Result shape of harvestPredictor.getHarvestStatus as consumed at
part_000 lines 396-397 and 402. -/
structure HarvestStatus where
  status : String
  message : String
  daysUntil : Option Int
deriving DecidableEq

/-- The sugarAcid record of a DiscoveryItem (part_000 lines 238-243).  The
source interface names the last field brimA. -/
structure SugarAcid where
  ssc : ℚ
  ta : ℚ
  ratio : ℚ
  brimA : ℚ
deriving DecidableEq

/-- DiscoveryItem (part_000 lines 223-244). -/
structure DiscoveryItem where
  crop : String
  cropName : String
  region : String
  regionName : String
  state : String
  distanceMiles : ℚ
  status : String
  statusMessage : String
  harvestStart : String
  harvestEnd : String
  optimalStart : String
  optimalEnd : String
  daysUntil : Option Int
  confidence : ℚ
  sugarAcid : Option SugarAcid
deriving DecidableEq

/-- The collaborator services called by the discovery endpoint.  Their
sources (lib/services/weather, lib/services/harvest-predictor,
lib/constants/gdd-targets, lib/utils/distance) are not part of the snapshot,
so they are oracles and every theorem quantifies over them.  A collaborator
call that can throw (getGddAccumulation when weather data is unavailable,
predictHarvestWindow inside the per-combination try of part_000 lines
364-408) returns an Option, none standing for a thrown exception.  The
reference date passed to getGddAccumulation (Jan 1 of the current year,
part_000 line 324) is fixed for a run and is folded into the oracle. -/
structure DiscoveryEnv where
  getGddAccumulation : String → ℚ → Option GddAccumulation
  getGddTargets : String → GddTargets
  predictHarvestWindow : String → String → ℚ → ℚ → Option HarvestWindow
  formatHarvestWindow : HarvestWindow → FormattedHarvestWindow
  getHarvestStatus : HarvestWindow → HarvestStatus
  estimateSugarAcid : ℚ → SugarAcid
  getDistanceMiles : ℚ → ℚ → ℚ → ℚ → ℚ

/-- One step of splitting a word list on underscores, folded over the
characters of the crop id; together with formatCropName below this embeds
crop.split(UNDERSCORE).map(capitalize).join(SPACE) of part_000 lines
384-387. -/
def splitCropStep (c : Char) : List (List Char) → List (List Char)
  | [] => [[c]]
  | group :: rest =>
      if c = '_' then [] :: group :: rest else (c :: group) :: rest

/-- Crop display name formatting (part_000 lines 384-387): split the crop id
on underscores, capitalize the first letter of each word, join with
spaces. -/
def formatCropName (crop : String) : String :=
  String.intercalate " "
    ((crop.toList.foldr splitCropStep [[]]).map (fun w => (String.mk w).capitalize))

/-- The crop/region combination list built at part_000 lines 327-332: every
viable crop of every region, regions in catalog order. -/
def combinations : List (String × String) :=
  US_GROWING_REGIONS.flatMap
    (fun region => region.viableCrops.map (fun crop => (crop, region.id)))

/-- The weather fetches issued by fetchAllPredictions (part_000 lines
337-355): one getGddAccumulation call per region of the catalog, keyed by
region id and using the base temperature of the GDD targets of the first
viable crop of the region.  Each pair is (regionId, baseTemp passed). -/
def weatherCalls (env : DiscoveryEnv) : List (String × ℚ) :=
  US_GROWING_REGIONS.map
    (fun region =>
      (region.id, (env.getGddTargets (region.viableCrops.headD "")).baseTemp))

/-- The entry of regionGddMap for a region (part_000 lines 334-355): the GDD
accumulation fetched once per region with the base temperature of the first
viable crop, none when the weather call threw (the catch at lines 351-353
logs and leaves the map without the entry). -/
def regionGdd (env : DiscoveryEnv) (regionId : String) : Option GddAccumulation :=
  match findRegion regionId with
  | some region =>
      env.getGddAccumulation regionId
        (env.getGddTargets (region.viableCrops.headD "")).baseTemp
  | none => none

/-- Citrus crop ids hardcoded at part_000 line 379 to decide whether a
sugar/acid estimate is attached. -/
def sugarAcidCrops : List String :=
  ["navel_orange", "valencia", "grapefruit", "tangerine", "satsuma"]

/-- The body of the per-combination loop of fetchAllPredictions (part_000
lines 358-409): look up the region and its fetched accumulation (skip when
the weather fetch failed, line 362), predict the harvest window (none models
an exception caught at lines 406-408), then assemble the DiscoveryItem that
is pushed at lines 389-405.  The getGddTargets(crop) call of line 365 is
modelled as total and its result is unused there, as in the source. -/
def predictItem (env : DiscoveryEnv) (crop regionId : String) : Option DiscoveryItem :=
  match findRegion regionId, regionGdd env regionId with
  | some regionData, some gddData =>
      match env.predictHarvestWindow crop regionId gddData.totalGdd gddData.avgDailyGdd with
      | some window =>
          let formatted := env.formatHarvestWindow window
          let status := env.getHarvestStatus window
          let sugarAcid : Option SugarAcid :=
            if crop ∈ sugarAcidCrops then
              some (env.estimateSugarAcid gddData.totalGdd)
            else none
          some { crop := crop
                 cropName := formatCropName crop
                 region := regionId
                 regionName := regionData.displayName
                 state := regionData.state
                 distanceMiles := 0
                 status := status.status
                 statusMessage := status.message
                 harvestStart := formatted.harvestStartDate
                 harvestEnd := formatted.harvestEndDate
                 optimalStart := formatted.optimalStartDate
                 optimalEnd := formatted.optimalEndDate
                 daysUntil := status.daysUntil
                 confidence := window.confidence
                 sugarAcid := sugarAcid }
      | none => none
  | _, _ => none

/-- fetchAllPredictions (part_000 lines 321-412): predictions for every
crop/region combination, in combination order, with failed combinations
dropped. -/
def fetchAllPredictions (env : DiscoveryEnv) : List DiscoveryItem :=
  combinations.filterMap (fun cr => predictItem env cr.1 cr.2)

/-- A value of the module-level prediction cache (part_000 line 247):
prediction list plus the Date.now() timestamp at which it was stored. -/
structure CacheEntry where
  data : List DiscoveryItem
  timestamp : Nat
deriving DecidableEq

/-- The module-level Map of part_000 line 247, keyed by the hour bucket. -/
abbrev DiscoveryCache := List (Nat × CacheEntry)

/-- cache.get (part_000 line 265). -/
def cacheGet (cache : DiscoveryCache) (key : Nat) : Option CacheEntry :=
  (cache.find? (fun e => e.1 == key)).map (fun e => e.2)

/-- cache.set (part_000 line 273): overwrite any entry at the key. -/
def cacheSet (cache : DiscoveryCache) (key : Nat) (entry : CacheEntry) : DiscoveryCache :=
  (key, entry) ::
    (List.filter (fun (e : Nat × CacheEntry) => e.1 != key) cache)

/-- CACHE_TTL = 30 * 60 * 1000 milliseconds (part_000 line 248). -/
def CACHE_TTL : Nat := 30 * 60 * 1000

/-- The hour-based cache key of part_000 line 264:
new Date().toISOString().slice(0, 13) names a calendar hour, so two instants
share the key exactly when they fall in the same whole hour; it is modelled
as the hour number since the epoch. -/
def hourKey (nowMs : Nat) : Nat :=
  nowMs / (60 * 60 * 1000)

/-- The JSON value returned by the GET handler of part_000.  badRequest is
the 400 response of lines 256-259, ok the 200 response of lines 303-308
(fields inSeason, comingSoon, totalRegions, timestamp), serverError the 500
response of the catch at lines 309-315.  In this embedding every
collaborator failure is an Option already handled inside
fetchAllPredictions, so no evaluation path constructs serverError; it is the
branch an exception escaping fetchAllPredictions would take. -/
inductive DiscoverResponse where
  | badRequest (error : String)
  | ok (inSeason comingSoon : List DiscoveryItem) (totalRegions : Nat) (timestamp : Nat)
  | serverError (error : String)
deriving DecidableEq

/-- HTTP status code of each response shape (part_000 lines 258, 303, 313). -/
def DiscoverResponse.statusCode : DiscoverResponse → Nat
  | .badRequest _ => 400
  | .ok _ _ _ _ => 200
  | .serverError _ => 500

/-- The JSON field names of each response shape, transcribing the object
literals at part_000 lines 256-257, 303-308 and 311-312. -/
def DiscoverResponse.fields : DiscoverResponse → List String
  | .badRequest _ => ["error"]
  | .ok _ _ _ _ => ["inSeason", "comingSoon", "totalRegions", "timestamp"]
  | .serverError _ => ["error"]

/-- The inSeason bucket of a response (empty for error responses). -/
def DiscoverResponse.inSeasonItems : DiscoverResponse → List DiscoveryItem
  | .ok l _ _ _ => l
  | _ => []

/-- The comingSoon bucket of a response (empty for error responses). -/
def DiscoverResponse.comingSoonItems : DiscoverResponse → List DiscoveryItem
  | .ok _ l _ _ => l
  | _ => []

/-- The totalRegions counter of a success response. -/
def DiscoverResponse.totalRegionsCount : DiscoverResponse → Option Nat
  | .ok _ _ n _ => some n
  | _ => none

/-- The cache consultation of part_000 lines 263-274: reuse the entry of the
current hour bucket when it is younger than CACHE_TTL, otherwise recompute
via fetchAllPredictions and store the fresh entry.  Returns the prediction
list used, the cache after the call, and the weather fetches issued. -/
def cachedPredictions (env : DiscoveryEnv) (nowMs : Nat) (cache : DiscoveryCache) :
    List DiscoveryItem × DiscoveryCache × List (String × ℚ) :=
  let cacheKey := hourKey nowMs
  match cacheGet cache cacheKey with
  | some entry =>
      if nowMs - entry.timestamp < CACHE_TTL then
        (entry.data, cache, [])
      else
        (fetchAllPredictions env,
         cacheSet cache cacheKey ⟨fetchAllPredictions env, nowMs⟩,
         weatherCalls env)
  | none =>
      (fetchAllPredictions env,
       cacheSet cache cacheKey ⟨fetchAllPredictions env, nowMs⟩,
       weatherCalls env)

/-- The distance attachment of part_000 lines 277-281: map every item to a
copy whose distanceMiles is getDistanceMiles(lat, lon, centroid of the item
region).  Items always name catalog regions; the none branch mirrors the
fact that a non-catalog region id cannot be given a distance. -/
def attachDistance (env : DiscoveryEnv) (lat lon : ℚ) (items : List DiscoveryItem) :
    List DiscoveryItem :=
  items.map fun item =>
    match findRegion item.region with
    | some region =>
        { item with
          distanceMiles := env.getDistanceMiles lat lon region.latitude region.longitude }
    | none => item

/-- Comparator of the inSeason sort (part_000 lines 286-291) as a
Boolean order: at_peak items first, then ascending distance. -/
def inSeasonLe (a b : DiscoveryItem) : Bool :=
  if a.status == "at_peak" && !(b.status == "at_peak") then true
  else if b.status == "at_peak" && !(a.status == "at_peak") then false
  else decide (a.distanceMiles ≤ b.distanceMiles)

/-- Comparator of the comingSoon sort (part_000 lines 295-301) as a Boolean
order: ascending daysUntil (999 when absent), then ascending distance. -/
def comingSoonLe (a b : DiscoveryItem) : Bool :=
  let daysA := a.daysUntil.getD 999
  let daysB := b.daysUntil.getD 999
  if daysA != daysB then decide (daysA ≤ daysB)
  else decide (a.distanceMiles ≤ b.distanceMiles)

/-- The inSeason bucket (part_000 lines 284-291): items whose status is
at_peak or in_season, sorted with at_peak first then by distance. -/
def inSeasonBucket (withDistance : List DiscoveryItem) : List DiscoveryItem :=
  (withDistance.filter
      (fun p => p.status == "at_peak" || p.status == "in_season")).mergeSort
    inSeasonLe

/-- The comingSoon bucket (part_000 lines 293-301): items whose status is
approaching and whose daysUntil (999 when absent) is at most 21, sorted by
daysUntil then distance. -/
def comingSoonBucket (withDistance : List DiscoveryItem) : List DiscoveryItem :=
  (withDistance.filter
      (fun p => p.status == "approaching" && decide (p.daysUntil.getD 999 ≤ 21))).mergeSort
    comingSoonLe

/-- The prediction list of a request after distance attachment (part_000
lines 263-281). -/
def discoverWithDistance (env : DiscoveryEnv) (lat lon : ℚ) (nowMs : Nat)
    (cache : DiscoveryCache) : List DiscoveryItem :=
  attachDistance env lat lon (cachedPredictions env nowMs cache).1

/-- Result of one GET call: the response, the cache afterwards, and the
weather fetches issued during the call. -/
structure GetResult where
  response : DiscoverResponse
  cache : DiscoveryCache
  weatherFetches : List (String × ℚ)

/-- The GET handler of part_000 lines 250-316.  latParam and lonParam are
the results of parseFloat(searchParams.get(...) or empty): none models a
missing parameter or one that does not parse to a number (the isNaN guard of
lines 255-260), some q a finite parsed value.  nowMs models Date.now() and
the request timestamp. -/
def discoverGET (env : DiscoveryEnv) (latParam lonParam : Option ℚ) (nowMs : Nat)
    (cache : DiscoveryCache) : GetResult :=
  match latParam, lonParam with
  | some lat, some lon =>
      let wd := discoverWithDistance env lat lon nowMs cache
      { response :=
          .ok (inSeasonBucket wd) (comingSoonBucket wd) US_GROWING_REGIONS.length nowMs
        cache := (cachedPredictions env nowMs cache).2.1
        weatherFetches := (cachedPredictions env nowMs cache).2.2 }
  | _, _ =>
      { response := .badRequest "lat and lon query params are required"
        cache := cache
        weatherFetches := [] }

/-- Modelled from the spec: a crop id counts as citrus-family when the
catalog places it (as a cultivar, via its product, or directly as a product)
in the citrus subcategory.  Used to state the spec phrase
"defined only for citrus-family cultivars" (section 4.5). -/
def citrusFamilyCrop (crop : String) : Bool :=
  match cultivarById crop with
  | some c => (productById c.productId).any (fun p => p.subcategory == "citrus")
  | none => (productById crop).any (fun p => p.subcategory == "citrus")

/-- The response field list the spec contract of section 4.6 asserts
(atPeak, inSeason, approaching, offSeason, totalResults, categoryCounts).
Modelled from the spec for comparison against the embedded endpoint. -/
def specContractFields : List String :=
  ["atPeak", "inSeason", "approaching", "offSeason", "totalResults", "categoryCounts"]

/-- A simple collaborator assignment used to instantiate the theorems at
concrete inputs: weather always returns 1000 total GDD at rate 5, the
predictor always yields a confidence-1 window, statuses are at_peak, and
distances are 0. -/
def envSimple : DiscoveryEnv :=
  { getGddAccumulation := fun _ _ => some ⟨1000, 5⟩
    getGddTargets := fun _ => ⟨50⟩
    predictHarvestWindow := fun _ _ _ _ => some ⟨0, 0, 0, 0, 1⟩
    formatHarvestWindow := fun _ => ⟨"2025-01-01", "2025-03-01", "2025-01-15", "2025-02-15"⟩
    getHarvestStatus := fun _ => ⟨"at_peak", "Peak now", none⟩
    estimateSugarAcid := fun g => ⟨g, 1, g, g⟩
    getDistanceMiles := fun _ _ _ _ => 0 }

/-- A collaborator assignment in which the weather provider is fully down:
every getGddAccumulation call throws. -/
def envAllFail : DiscoveryEnv :=
  { envSimple with getGddAccumulation := fun _ _ => none }

/-- env with the weather fetch of one region failing (throwing) and every
other region answering as in env. -/
def failRegion (env : DiscoveryEnv) (failedRegion : String) : DiscoveryEnv :=
  { env with
    getGddAccumulation := fun r b =>
      if r = failedRegion then none else env.getGddAccumulation r b }

/-- The DiscoveryItem produced by envSimple for navel_orange in
indian_river, written out for use as a concrete instantiation. -/
def item0 : DiscoveryItem :=
  { crop := "navel_orange", cropName := "Navel Orange", region := "indian_river",
    regionName := "Indian River District", state := "FL", distanceMiles := 0,
    status := "at_peak", statusMessage := "Peak now",
    harvestStart := "2025-01-01", harvestEnd := "2025-03-01",
    optimalStart := "2025-01-15", optimalEnd := "2025-02-15",
    daysUntil := none, confidence := 1,
    sugarAcid := some ⟨1000, 1, 1000, 1000⟩ }

/-! ## Supporting lemmas -/

/-- An item produced for a combination carries the region id of that
combination. -/
theorem predictItem_region (env : DiscoveryEnv) (crop regionId : String)
    (item : DiscoveryItem) (h : predictItem env crop regionId = some item) :
    item.region = regionId := by
  unfold predictItem at h
  cases hfind : findRegion regionId with
  | none =>
      rw [hfind] at h
      exact Option.noConfusion h
  | some regionData =>
      cases hgdd : regionGdd env regionId with
      | none =>
          rw [hfind, hgdd] at h
          exact Option.noConfusion h
      | some gddData =>
          rw [hfind, hgdd] at h
          dsimp only at h
          cases hwin : env.predictHarvestWindow crop regionId gddData.totalGdd
              gddData.avgDailyGdd with
          | none =>
              rw [hwin] at h
              exact Option.noConfusion h
          | some window =>
              rw [hwin] at h
              cases h
              rfl

/-- When the weather provider fails for every region, no prediction is
produced at all. -/
theorem fetchAllPredictions_weather_down (env : DiscoveryEnv)
    (hall : env.getGddAccumulation = fun _ _ => none) :
    fetchAllPredictions env = [] := by
  unfold fetchAllPredictions
  rw [List.filterMap_eq_nil_iff]
  intro cr _
  unfold predictItem
  have hg : regionGdd env cr.2 = none := by
    unfold regionGdd
    cases findRegion cr.2 <;> simp [hall]
  rw [hg]
  cases findRegion cr.2 <;> rfl

/-- Reading a cache key immediately after writing it yields the written
entry. -/
theorem cacheGet_cacheSet (cache : DiscoveryCache) (key : Nat) (entry : CacheEntry) :
    cacheGet (cacheSet cache key entry) key = some entry := by
  unfold cacheGet cacheSet
  simp

/-- Membership in the comingSoon bucket, unfolded through the sort and the
filter. -/
theorem mem_comingSoonBucket (l : List DiscoveryItem) (item : DiscoveryItem) :
    item ∈ comingSoonBucket l ↔
      item ∈ l ∧ item.status = "approaching" ∧ item.daysUntil.getD 999 ≤ 21 := by
  unfold comingSoonBucket
  rw [List.mem_mergeSort, List.mem_filter]
  simp [and_assoc]

/-- A region different from the failed one sees the same accumulation. -/
theorem regionGdd_failRegion_ne (env : DiscoveryEnv) (failedRegion regionId : String)
    (h : regionId ≠ failedRegion) :
    regionGdd (failRegion env failedRegion) regionId = regionGdd env regionId := by
  unfold regionGdd failRegion
  cases findRegion regionId <;> simp [h]

/-- The failed region has no accumulation entry. -/
theorem regionGdd_failRegion_self (env : DiscoveryEnv) (failedRegion : String) :
    regionGdd (failRegion env failedRegion) failedRegion = none := by
  unfold regionGdd failRegion
  cases findRegion failedRegion <;> simp

/-- A combination outside the failed region predicts exactly as before. -/
theorem predictItem_failRegion_ne (env : DiscoveryEnv) (failedRegion crop regionId : String)
    (h : regionId ≠ failedRegion) :
    predictItem (failRegion env failedRegion) crop regionId = predictItem env crop regionId := by
  unfold predictItem
  rw [regionGdd_failRegion_ne env failedRegion regionId h]
  rfl

/-- A combination of the failed region is dropped. -/
theorem predictItem_failRegion_self (env : DiscoveryEnv) (failedRegion crop : String) :
    predictItem (failRegion env failedRegion) crop failedRegion = none := by
  unfold predictItem
  rw [regionGdd_failRegion_self env failedRegion]
  cases findRegion failedRegion <;> rfl

/-! ## Claim theorems -/

/-- C1 counterexample: the success response of the discovery endpoint
carries the fields inSeason, comingSoon, totalRegions and timestamp, not the
atPeak / inSeason / approaching / offSeason / totalResults / categoryCounts
object asserted by the spec contract; in particular there is no totalResults
counter at all.  Shown on a concrete request at (0, 0) at time 0 with an
empty cache. -/
theorem discover_contract_shape_counterexample :
    (discoverGET envSimple (some 0) (some 0) 0 []).response.fields
        = ["inSeason", "comingSoon", "totalRegions", "timestamp"] ∧
    (discoverGET envSimple (some 0) (some 0) 0 []).response.fields ≠ specContractFields ∧
    "atPeak" ∉ (discoverGET envSimple (some 0) (some 0) 0 []).response.fields ∧
    "offSeason" ∉ (discoverGET envSimple (some 0) (some 0) 0 []).response.fields ∧
    "totalResults" ∉ (discoverGET envSimple (some 0) (some 0) 0 []).response.fields ∧
    "categoryCounts" ∉ (discoverGET envSimple (some 0) (some 0) 0 []).response.fields :=
  ⟨rfl, by decide, by decide, by decide, by decide, by decide⟩

/-- C1 (amended): for every request with valid coordinates the discovery
endpoint returns a success object whose fields are exactly inSeason,
comingSoon, totalRegions and timestamp, where totalRegions equals the number
of regions in the catalog (24), independent of how many offerings
survive. -/
theorem discover_contract_shape (env : DiscoveryEnv) (lat lon : ℚ) (nowMs : Nat)
    (cache : DiscoveryCache) :
    (discoverGET env (some lat) (some lon) nowMs cache).response.fields
        = ["inSeason", "comingSoon", "totalRegions", "timestamp"] ∧
    (discoverGET env (some lat) (some lon) nowMs cache).response.totalRegionsCount
        = some US_GROWING_REGIONS.length ∧
    US_GROWING_REGIONS.length = 24 :=
  ⟨rfl, rfl, by decide⟩

/-- C2 counterexample: with the weather provider fully down (every
getGddAccumulation call throwing) and an empty cache, the endpoint answers a
200 success whose buckets are both empty, not a top-level error, because the
per-region catch inside fetchAllPredictions swallows every failure. -/
theorem discover_weather_down_counterexample :
    (discoverGET envAllFail (some 0) (some 0) 0 []).response
        = .ok [] [] US_GROWING_REGIONS.length 0 ∧
    (discoverGET envAllFail (some 0) (some 0) 0 []).response.statusCode = 200 := by
  have h : fetchAllPredictions envAllFail = [] := by decide
  have hr : (discoverGET envAllFail (some 0) (some 0) 0 []).response
      = .ok [] [] US_GROWING_REGIONS.length 0 := by
    simp [discoverGET, discoverWithDistance, cachedPredictions, cacheGet, h,
      attachDistance, inSeasonBucket, comingSoonBucket]
  refine ⟨hr, ?_⟩
  rw [hr]
  rfl

/-- C2 (amended): for valid coordinates the endpoint always returns HTTP
200 — a partial or even total failure of the offerings never surfaces as a
top-level error; when every weather fetch fails (and no cached predictions
mask it) the success response simply carries empty inSeason and comingSoon
buckets. -/
theorem discover_never_top_level_error (env : DiscoveryEnv) (lat lon : ℚ) (nowMs : Nat)
    (cache : DiscoveryCache) :
    (discoverGET env (some lat) (some lon) nowMs cache).response.statusCode = 200 ∧
    (env.getGddAccumulation = (fun _ _ => none) →
      cacheGet cache (hourKey nowMs) = none →
      (discoverGET env (some lat) (some lon) nowMs cache).response.inSeasonItems = [] ∧
      (discoverGET env (some lat) (some lon) nowMs cache).response.comingSoonItems = []) := by
  constructor
  · rfl
  · intro hall hmiss
    have hf := fetchAllPredictions_weather_down env hall
    have hcp : cachedPredictions env nowMs cache
        = (fetchAllPredictions env,
           cacheSet cache (hourKey nowMs) ⟨fetchAllPredictions env, nowMs⟩,
           weatherCalls env) := by
      simp only [cachedPredictions, hmiss]
    constructor
    · show inSeasonBucket (discoverWithDistance env lat lon nowMs cache) = []
      unfold discoverWithDistance
      rw [hcp]
      simp [hf, attachDistance, inSeasonBucket]
    · show comingSoonBucket (discoverWithDistance env lat lon nowMs cache) = []
      unfold discoverWithDistance
      rw [hcp]
      simp [hf, attachDistance, comingSoonBucket]

/-- C2 witness: the amended theorem applied to the all-failures environment
at the concrete request (0, 0), time 0, empty cache. -/
theorem discover_never_top_level_error_witness :
    envAllFail.getGddAccumulation = (fun _ _ => none) ∧
    cacheGet [] (hourKey 0) = none ∧
    ((discoverGET envAllFail (some 0) (some 0) 0 []).response.inSeasonItems = [] ∧
     (discoverGET envAllFail (some 0) (some 0) 0 []).response.comingSoonItems = []) :=
  ⟨rfl, rfl, (discover_never_top_level_error envAllFail 0 0 0 []).2 rfl rfl⟩

/-- C3: failing the weather fetch of exactly one region removes exactly the
combinations of that region from the aggregated result: the batch result
with one failed region equals the unfailed result filtered to the other
regions, so no other prediction is lost and the batch never aborts. -/
theorem failed_region_only_drops_own_offerings (env : DiscoveryEnv) (failedRegion : String) :
    fetchAllPredictions (failRegion env failedRegion)
      = (fetchAllPredictions env).filter (fun item => item.region != failedRegion) := by
  unfold fetchAllPredictions
  have main : ∀ l : List (String × String),
      l.filterMap (fun cr => predictItem (failRegion env failedRegion) cr.1 cr.2)
        = (l.filterMap (fun cr => predictItem env cr.1 cr.2)).filter
            (fun item => item.region != failedRegion) := by
    intro l
    induction l with
    | nil => rfl
    | cons cr rest ih =>
      by_cases hr : cr.2 = failedRegion
      · have h0 : predictItem (failRegion env failedRegion) cr.1 cr.2 = none := by
          rw [hr]
          exact predictItem_failRegion_self env failedRegion cr.1
        cases h2 : predictItem env cr.1 cr.2 with
        | none => simp only [List.filterMap_cons, h0, h2, ih]
        | some item =>
            have hreg : item.region = failedRegion := by
              rw [predictItem_region env cr.1 cr.2 item h2]
              exact hr
            simp only [List.filterMap_cons, h0, h2, ih, List.filter_cons]
            simp [hreg]
      · have h0 : predictItem (failRegion env failedRegion) cr.1 cr.2
            = predictItem env cr.1 cr.2 :=
          predictItem_failRegion_ne env failedRegion cr.1 cr.2 hr
        cases h2 : predictItem env cr.1 cr.2 with
        | none => simp only [h0, List.filterMap_cons, h2, ih]
        | some item =>
            have hreg := predictItem_region env cr.1 cr.2 item h2
            simp only [h0, List.filterMap_cons, h2, ih, List.filter_cons]
            simp [hreg, hr]
  exact main combinations

/-- C4: an item is in the comingSoon (approaching) bucket of a valid
discovery response exactly when it is one of the distance-attached
prediction items of the request, its status is approaching, and its
daysUntil value (999 when absent) is at most 21; items further than 21 days
out never appear in that bucket. -/
theorem comingSoon_membership (env : DiscoveryEnv) (lat lon : ℚ) (nowMs : Nat)
    (cache : DiscoveryCache) (item : DiscoveryItem) :
    item ∈ (discoverGET env (some lat) (some lon) nowMs cache).response.comingSoonItems
      ↔ item ∈ discoverWithDistance env lat lon nowMs cache ∧
        item.status = "approaching" ∧ item.daysUntil.getD 999 ≤ 21 :=
  mem_comingSoonBucket (discoverWithDistance env lat lon nowMs cache) item

/-- C5: one aggregation run issues exactly one getGddAccumulation call per
catalog region: the call list is keyed by the (pairwise distinct) region
ids, its length equals the number of distinct regions appearing among the
crop/region combinations, and it is strictly shorter than the combination
(offering) list, so there is no per-offering weather call. -/
theorem weather_calls_one_per_region (env : DiscoveryEnv) :
    (weatherCalls env).map Prod.fst = US_GROWING_REGIONS.map GrowingRegion.id ∧
    ((weatherCalls env).map Prod.fst).Nodup ∧
    (weatherCalls env).length = ((combinations.map Prod.snd).dedup).length ∧
    (weatherCalls env).length < combinations.length := by
  have hmap : (weatherCalls env).map Prod.fst = US_GROWING_REGIONS.map GrowingRegion.id := by
    unfold weatherCalls
    rw [List.map_map]
    rfl
  have hlen : (weatherCalls env).length = US_GROWING_REGIONS.length := by
    unfold weatherCalls
    rw [List.length_map]
  refine ⟨hmap, ?_, ?_, ?_⟩
  · rw [hmap]
    decide
  · rw [hlen]
    decide
  · rw [hlen]
    decide

/-- C6: two discovery calls with the same coordinates, falling in the same
hour bucket and with the second within the cache TTL of the first, return
identical inSeason and comingSoon buckets, and the second call issues no
weather fetch at all: it reuses the cached distance-independent prediction
set and recomputes only the distance attachment and sorting.  The first
call is assumed to find no entry for its hour bucket, so it computes and
stores the prediction set. -/
theorem discover_cache_idempotent (env : DiscoveryEnv) (lat lon : ℚ) (t1 t2 : Nat)
    (cache : DiscoveryCache)
    (hkey : hourKey t1 = hourKey t2) (httl : t2 - t1 < CACHE_TTL)
    (hmiss : cacheGet cache (hourKey t1) = none) :
    ((discoverGET env (some lat) (some lon) t2
        (discoverGET env (some lat) (some lon) t1 cache).cache).response.inSeasonItems
      = (discoverGET env (some lat) (some lon) t1 cache).response.inSeasonItems) ∧
    ((discoverGET env (some lat) (some lon) t2
        (discoverGET env (some lat) (some lon) t1 cache).cache).response.comingSoonItems
      = (discoverGET env (some lat) (some lon) t1 cache).response.comingSoonItems) ∧
    (discoverGET env (some lat) (some lon) t2
        (discoverGET env (some lat) (some lon) t1 cache).cache).weatherFetches = [] := by
  have h1 : cachedPredictions env t1 cache
      = (fetchAllPredictions env,
         cacheSet cache (hourKey t1) ⟨fetchAllPredictions env, t1⟩,
         weatherCalls env) := by
    simp only [cachedPredictions, hmiss]
  have hc1 : (discoverGET env (some lat) (some lon) t1 cache).cache
      = cacheSet cache (hourKey t1) ⟨fetchAllPredictions env, t1⟩ := by
    show (cachedPredictions env t1 cache).2.1 = _
    rw [h1]
  have h2 : cachedPredictions env t2 (cacheSet cache (hourKey t1) ⟨fetchAllPredictions env, t1⟩)
      = (fetchAllPredictions env,
         cacheSet cache (hourKey t1) ⟨fetchAllPredictions env, t1⟩,
         []) := by
    simp only [cachedPredictions, ← hkey,
      cacheGet_cacheSet cache (hourKey t1) ⟨fetchAllPredictions env, t1⟩]
    rw [if_pos httl]
  have hwd : discoverWithDistance env lat lon t2
        (cacheSet cache (hourKey t1) ⟨fetchAllPredictions env, t1⟩)
      = discoverWithDistance env lat lon t1 cache := by
    unfold discoverWithDistance
    rw [h1, h2]
  refine ⟨?_, ?_, ?_⟩
  · show inSeasonBucket (discoverWithDistance env lat lon t2
        (discoverGET env (some lat) (some lon) t1 cache).cache)
      = inSeasonBucket (discoverWithDistance env lat lon t1 cache)
    rw [hc1, hwd]
  · show comingSoonBucket (discoverWithDistance env lat lon t2
        (discoverGET env (some lat) (some lon) t1 cache).cache)
      = comingSoonBucket (discoverWithDistance env lat lon t1 cache)
    rw [hc1, hwd]
  · show (cachedPredictions env t2
        (discoverGET env (some lat) (some lon) t1 cache).cache).2.2 = []
    rw [hc1, h2]

/-- C6 witness: the idempotence theorem applied to two concrete calls at
times 0 and 1000 (same hour bucket, within the TTL) from an empty cache. -/
theorem discover_cache_idempotent_witness :
    hourKey 0 = hourKey 1000 ∧
    1000 - 0 < CACHE_TTL ∧
    cacheGet [] (hourKey 0) = none ∧
    ((discoverGET envSimple (some 0) (some 0) 1000
        (discoverGET envSimple (some 0) (some 0) 0 []).cache).response.inSeasonItems
      = (discoverGET envSimple (some 0) (some 0) 0 []).response.inSeasonItems) :=
  ⟨by decide, by decide, rfl,
    (discover_cache_idempotent envSimple 0 0 0 1000 [] (by decide) (by decide) rfl).1⟩

/-- C7: the catalog breaks the parent-resolution invariant: the parent-model
cultivar fresh_evoo references the parent id olive, but no cultivar with id
olive exists in CULTIVARS, so its resolution dangles instead of reaching a
non-parent ancestor.  The other two parent cultivars do resolve in one hop
to existing calendar-model (non-parent) ancestors. -/
theorem cultivar_parent_chain_dangling :
    (cultivarById "fresh_evoo").map Cultivar.modelType = some .parent ∧
    (cultivarById "fresh_evoo").map Cultivar.parentVarietyId = some (some "olive") ∧
    cultivarById "olive" = none ∧
    (cultivarById "fresh_squeezed_oj").map Cultivar.parentVarietyId
        = some (some "valencia_orange") ∧
    (cultivarById "valencia_orange").map Cultivar.modelType = some .calendar ∧
    (cultivarById "fresh_cider").map Cultivar.parentVarietyId = some (some "honeycrisp") ∧
    (cultivarById "honeycrisp").map Cultivar.modelType = some .calendar := by
  decide

/-- C8 counterexample: meyer_lemon is a citrus-family cultivar (its product
is the citrus-subcategory lemon) and is listed viable in gulf_coast_citrus,
yet the produced discovery item carries no sugar/acid estimate, because the
endpoint attaches the estimate only for the five hardcoded crop ids of
part_000 line 379, a list meyer_lemon is not on. -/
theorem sugar_acid_citrus_counterexample :
    ("meyer_lemon", "gulf_coast_citrus") ∈ combinations ∧
    citrusFamilyCrop "meyer_lemon" = true ∧
    "meyer_lemon" ∉ sugarAcidCrops ∧
    (predictItem envSimple "meyer_lemon" "gulf_coast_citrus").map DiscoveryItem.sugarAcid
      = some none := by
  decide

/-- C8 (amended): a discovery item carries a sugar/acid estimate exactly
when its crop is one of the five hardcoded ids navel_orange, valencia,
grapefruit, tangerine, satsuma — not when it is citrus-family in the catalog
sense — and any attached estimate is computed from the region-level total
GDD accumulation. -/
theorem sugar_acid_hardcoded_list (env : DiscoveryEnv) (crop regionId : String)
    (item : DiscoveryItem) (h : predictItem env crop regionId = some item) :
    (item.sugarAcid.isSome ↔ crop ∈ sugarAcidCrops) ∧
    (∀ sa, item.sugarAcid = some sa →
      ∃ gddData, regionGdd env regionId = some gddData ∧
        sa = env.estimateSugarAcid gddData.totalGdd) := by
  unfold predictItem at h
  cases hfind : findRegion regionId with
  | none =>
      rw [hfind] at h
      exact Option.noConfusion h
  | some regionData =>
      cases hgdd : regionGdd env regionId with
      | none =>
          rw [hfind, hgdd] at h
          exact Option.noConfusion h
      | some gddData =>
          rw [hfind, hgdd] at h
          dsimp only at h
          cases hwin : env.predictHarvestWindow crop regionId gddData.totalGdd
              gddData.avgDailyGdd with
          | none =>
              rw [hwin] at h
              exact Option.noConfusion h
          | some window =>
              rw [hwin] at h
              cases h
              by_cases hc : crop ∈ sugarAcidCrops
              · refine ⟨by simp [hc], ?_⟩
                intro sa hsa
                refine ⟨gddData, rfl, ?_⟩
                simp only [hc, if_pos] at hsa
                simp at hsa
                exact hsa.symm
              · refine ⟨by simp [hc], ?_⟩
                intro sa hsa
                simp [hc] at hsa

/-- C8 witness: the amended theorem applied to the concrete item produced
for navel_orange in indian_river under envSimple, a crop on the hardcoded
list. -/
theorem sugar_acid_hardcoded_list_witness :
    predictItem envSimple "navel_orange" "indian_river" = some item0 ∧
    (item0.sugarAcid.isSome ↔ "navel_orange" ∈ sugarAcidCrops) :=
  ⟨by decide,
    (sugar_acid_hardcoded_list envSimple "navel_orange" "indian_river" item0 (by decide)).1⟩

/-- C9: every discovery item of a region is computed from the single
region-level accumulation, which is fetched with the base temperature of the
GDD targets of the first viable crop of that region: the accumulation that
feeds predictHarvestWindow for any crop of the region is exactly the result
of that one region-keyed getGddAccumulation call, regardless of the crop of
the item. -/
theorem region_accumulation_shared (env : DiscoveryEnv) (crop regionId : String)
    (item : DiscoveryItem) (h : predictItem env crop regionId = some item) :
    ∃ region gddData window,
      findRegion regionId = some region ∧
      regionGdd env regionId
        = env.getGddAccumulation regionId
            (env.getGddTargets (region.viableCrops.headD "")).baseTemp ∧
      regionGdd env regionId = some gddData ∧
      env.predictHarvestWindow crop regionId gddData.totalGdd gddData.avgDailyGdd
        = some window ∧
      item.confidence = window.confidence ∧
      item.daysUntil = (env.getHarvestStatus window).daysUntil := by
  unfold predictItem at h
  cases hfind : findRegion regionId with
  | none =>
      rw [hfind] at h
      exact Option.noConfusion h
  | some regionData =>
      cases hgdd : regionGdd env regionId with
      | none =>
          rw [hfind, hgdd] at h
          exact Option.noConfusion h
      | some gddData =>
          rw [hfind, hgdd] at h
          dsimp only at h
          cases hwin : env.predictHarvestWindow crop regionId gddData.totalGdd
              gddData.avgDailyGdd with
          | none =>
              rw [hwin] at h
              exact Option.noConfusion h
          | some window =>
              rw [hwin] at h
              cases h
              refine ⟨regionData, gddData, window, rfl, ?_, rfl, hwin, rfl, rfl⟩
              rw [← hgdd]
              unfold regionGdd
              rw [hfind]

/-- C9 witness: the theorem applied to the concrete item produced for
navel_orange in indian_river under envSimple. -/
theorem region_accumulation_shared_witness :
    predictItem envSimple "navel_orange" "indian_river" = some item0 ∧
    (∃ region gddData window,
      findRegion "indian_river" = some region ∧
      regionGdd envSimple "indian_river"
        = envSimple.getGddAccumulation "indian_river"
            (envSimple.getGddTargets (region.viableCrops.headD "")).baseTemp ∧
      regionGdd envSimple "indian_river" = some gddData ∧
      envSimple.predictHarvestWindow "navel_orange" "indian_river" gddData.totalGdd
          gddData.avgDailyGdd = some window ∧
      item0.confidence = window.confidence ∧
      item0.daysUntil = (envSimple.getHarvestStatus window).daysUntil) :=
  ⟨by decide,
    region_accumulation_shared envSimple "navel_orange" "indian_river" item0 (by decide)⟩

/-- C10: when the lat or the lon query parameter is missing or does not
parse to a number, the endpoint returns the 400 bad-request error response,
leaves the prediction cache untouched, and issues no weather fetch (so no
prediction computation happens at all). -/
theorem invalid_params_bad_request (env : DiscoveryEnv) (latParam lonParam : Option ℚ)
    (nowMs : Nat) (cache : DiscoveryCache)
    (h : latParam = none ∨ lonParam = none) :
    (discoverGET env latParam lonParam nowMs cache).response
        = .badRequest "lat and lon query params are required" ∧
    (discoverGET env latParam lonParam nowMs cache).response.statusCode = 400 ∧
    (discoverGET env latParam lonParam nowMs cache).cache = cache ∧
    (discoverGET env latParam lonParam nowMs cache).weatherFetches = [] := by
  rcases h with h | h
  · subst h
    cases lonParam <;> exact ⟨rfl, rfl, rfl, rfl⟩
  · subst h
    cases latParam <;> exact ⟨rfl, rfl, rfl, rfl⟩

/-- C10 witness: the theorem applied to a request with a missing lat
parameter and a valid lon parameter. -/
theorem invalid_params_bad_request_witness :
    ((none : Option ℚ) = none ∨ (some (0 : ℚ)) = none) ∧
    (discoverGET envSimple none (some 0) 0 []).response.statusCode = 400 ∧
    (discoverGET envSimple none (some 0) 0 []).cache = [] ∧
    (discoverGET envSimple none (some 0) 0 []).weatherFetches = [] :=
  ⟨Or.inl rfl,
    (invalid_params_bad_request envSimple none (some 0) 0 [] (Or.inl rfl)).2.1,
    (invalid_params_bad_request envSimple none (some 0) 0 [] (Or.inl rfl)).2.2.1,
    (invalid_params_bad_request envSimple none (some 0) 0 [] (Or.inl rfl)).2.2.2⟩

end Fielder
